import Mathlib

/-
  Shallow embedding of the attribute-mapping editor component
  `attribute-mapping-list-item.tsx` from the identity-apps console
  (identity-verification-providers feature).

  The component owns four pieces of React state (the candidate attribute
  list, two draft field values, and an error flag), derives the candidate
  list from props, validates the external-value field, and on submission
  builds one claim mapping and hands it to the caller.

  The two format checks `FormValidation.url` and
  `FormValidation.isValidResourceName` live in the external
  `@wso2is/validation` package; the component only consumes their Bool
  results, so they are passed in as abstract `String → Bool` parameters.
-/

namespace AttributeMappingListItem

/-- Local claim record (`IDVPLocalClaimInterface` from the models module):
a selectable local attribute with an id, a display name and a URI. -/
structure IDVPLocalClaimInterface where
  id : String
  displayName : String
  uri : String
deriving Repr, DecidableEq

/-- Claim mapping record (`IDVPClaimMappingInterface`): associates an
external (IdP-side) value `idvpClaim` with a local claim. The submit
handler can produce a record whose `localClaim` is `undefined` when the
selected id is not found, so the field is modelled as an `Option`. -/
structure IDVPClaimMappingInterface where
  idvpClaim : String
  localClaim : Option IDVPLocalClaimInterface
deriving Repr, DecidableEq

/-- Symbolic validation errors. `required` stands for the string constant
`FieldConstants.FIELD_REQUIRED_ERROR`, `invalidFormat` for
`FieldConstants.INVALID_RESOURCE_ERROR`, and `duplicate` for the literal
message about an already-mapped attribute. -/
inductive FieldError where
  | required
  | invalidFormat
  | duplicate
deriving Repr, DecidableEq

/-- Source: `const toBits = (bool: boolean): number => bool ? 1 : 0;` -/
def toBits (b : Bool) : Nat := if b then 1 else 0

/-- JS truthiness of a number: nonzero numbers are truthy. -/
def numTruthy (n : Nat) : Bool := n != 0

/-- JS truthiness of an optional boolean (`undefined` is falsy). -/
def boolOptTruthy : Option Bool → Bool
  | none => false
  | some b => b

/-- JS truthiness of an optional string (`undefined` and `""` are falsy). -/
def strOptTruthy : Option String → Bool
  | none => false
  | some s => !s.isEmpty

/-- Model of the JS `value.trim()` call: drop leading and trailing
whitespace characters. Implemented over the character list so that the
kernel can evaluate it on concrete strings. -/
def jsTrim (s : String) : String :=
  ⟨((s.data.dropWhile Char.isWhitespace).reverse.dropWhile Char.isWhitespace).reverse⟩

/-- Result of one run of the `mappedValue` field validation: the value
returned to the form framework (`none` encodes `undefined`, meaning the
field is valid) together with the value passed to `setMappingHasError`. -/
structure ValidationOutcome where
  result : Option FieldError
  mappingHasError : Bool
deriving Repr, DecidableEq

/-- The `validation` callback of the `mappedValue` field input.
Mirrors the source:
1. `!value || !value.trim()` rejects with the required error;
2. `toBits(!FormValidation.url(value)) & toBits(!FormValidation.isValidResourceName(value))`
   nonzero rejects with the invalid-format error;
3. a value present in the set of already-mapped `idvpClaim` values is a
   duplicate unless `editingMode && mapping?.idvpClaim === value`;
4. otherwise the field is accepted.
Every path also records the error flag via `setMappingHasError`. -/
def validateMappedValue (url isValidResourceName : String → Bool)
    (alreadyMappedAttributesList : List IDVPClaimMappingInterface)
    (editingMode : Bool) (mapping : Option IDVPClaimMappingInterface)
    (value : Option String) : ValidationOutcome :=
  match value with
  | none => ⟨some .required, true⟩
  | some s =>
    if s.isEmpty || (jsTrim s).isEmpty then
      ⟨some .required, true⟩
    else if numTruthy (Nat.land (toBits (!url s)) (toBits (!isValidResourceName s))) then
      ⟨some .invalidFormat, true⟩
    else
      let mappedValues : List String :=
        alreadyMappedAttributesList.map (fun a => a.idvpClaim)
      if mappedValues.contains s then
        if editingMode && (match mapping with
            | some m => m.idvpClaim == s
            | none => false) then
          ⟨none, false⟩
        else
          ⟨some .duplicate, true⟩
      else
        ⟨none, false⟩

/-- The `useEffect` on `[availableAttributeList]`: copy the available
list and, when `editingMode && mapping?.idvpClaim && mapping?.localClaim`
is truthy, push the local claim of the mapping onto the end of the copy. -/
def deriveCandidateList (availableAttributeList : List IDVPLocalClaimInterface)
    (editingMode : Bool) (mapping : Option IDVPClaimMappingInterface) :
    List IDVPLocalClaimInterface :=
  let copy := availableAttributeList
  if editingMode && strOptTruthy (mapping.map (fun m => m.idvpClaim)) then
    match mapping.bind (fun m => m.localClaim) with
    | some lc => copy ++ [lc]
    | none => copy
  else
    copy

/-- The field values carried by the submit event (`values.mappedValue`
and `values.localClaimId`). The form framework hands them over as
strings. -/
structure FormValues where
  mappedValue : String
  localClaimId : String
deriving Repr, DecidableEq

/-- Per-field state of the enclosing final-form instance, as far as the
component touches it: the two field values (`form.change`) and the
recorded validation state of each field (`form.resetFieldState` returns a
field to the pristine state, modelled as `none`). -/
structure FormFields where
  mappedValue : String
  localClaimId : String
  mappedValueFieldState : Option FieldError
  localClaimIdFieldState : Option FieldError
deriving Repr, DecidableEq

/-- React state owned by one rendered instance: the candidate list
`copyOfAttrs` and the three `useState` cells. The string and boolean
cells start out `undefined`, hence the `Option` types. -/
structure EditorState where
  copyOfAttrs : List IDVPLocalClaimInterface
  mappedInputValue : Option String
  selectedLocalAttributeInputValue : Option String
  mappingHasError : Option Bool
deriving Repr, DecidableEq

/-- Everything `onFormSub` produces: the list of arguments passed to the
caller-supplied `onSubmit` callback (in order), the form field state it
leaves behind, and the React state it leaves behind. -/
structure SubmitResult where
  emitted : List IDVPClaimMappingInterface
  form : FormFields
  state : EditorState
deriving Repr, DecidableEq

/-- The form submission handler `onFormSub`: build one
`IDVPClaimMappingInterface` whose `idvpClaim` is `values.mappedValue`
and whose `localClaim` is the first element of `copyOfAttrs` with
`claim.id === values.localClaimId` (or `undefined` when none matches),
call `onSubmit` with it, then — only when not in editing mode — clear
both form fields, reset both field states, and set both draft state
cells to the empty string. -/
def onFormSub (editingMode : Bool) (values : FormValues)
    (form : FormFields) (st : EditorState) : SubmitResult :=
  let newAttributeMapping : IDVPClaimMappingInterface :=
    { idvpClaim := values.mappedValue,
      localClaim := st.copyOfAttrs.find? (fun claim => claim.id == values.localClaimId) }
  let emitted := [newAttributeMapping]
  if !editingMode then
    { emitted := emitted,
      form := { mappedValue := "", localClaimId := "",
                mappedValueFieldState := none, localClaimIdFieldState := none },
      state := { st with mappedInputValue := some "",
                         selectedLocalAttributeInputValue := some "" } }
  else
    { emitted := emitted, form := form, state := st }

/-- Disabled condition of the inline (editing-mode) submit icon button:
`mappingHasError || !mappedInputValue || !selectedLocalAttributeInputValue`. -/
def editingModeButtonDisabled (st : EditorState) : Bool :=
  boolOptTruthy st.mappingHasError ||
  !strOptTruthy st.mappedInputValue ||
  !strOptTruthy st.selectedLocalAttributeInputValue

/-- Disabled condition of the full-width (non-editing-mode) submit
button; the source expression is identical to the editing-mode one. -/
def addModeButtonDisabled (st : EditorState) : Bool :=
  boolOptTruthy st.mappingHasError ||
  !strOptTruthy st.mappedInputValue ||
  !strOptTruthy st.selectedLocalAttributeInputValue

/-- Disabled condition of whichever submit button the current mode
renders. -/
def submitButtonDisabled (editingMode : Bool) (st : EditorState) : Bool :=
  if editingMode then editingModeButtonDisabled st else addModeButtonDisabled st

/-- The bitwise-AND gate of the format check: the JS expression
`toBits(!a) & toBits(!b)` is truthy exactly when both checks failed. -/
theorem numTruthy_land_toBits (a b : Bool) :
    numTruthy (Nat.land (toBits a) (toBits b)) = (a && b) := by
  cases a <;> cases b <;> decide

/-- Claim C2: for every input value that is empty, `undefined` or
whitespace-only, validation returns the required error and sets the
error flag to true, regardless of the already-mapped list, the edit-mode
flag and the current mapping. -/
theorem validate_blank_yields_required
    (url isValidResourceName : String → Bool)
    (lst : List IDVPClaimMappingInterface) (em : Bool)
    (mp : Option IDVPClaimMappingInterface) (v : Option String)
    (h : v = none ∨ ∃ s, v = some s ∧ (s.isEmpty = true ∨ (jsTrim s).isEmpty = true)) :
    validateMappedValue url isValidResourceName lst em mp v =
      ⟨some .required, true⟩ := by
  rcases h with rfl | ⟨s, rfl, hs⟩
  · rfl
  · unfold validateMappedValue
    rcases hs with hs | hs <;> simp [hs]

/-- Claim C1: every non-blank input that passes at least one of the two
format checks and does not occur among the already-mapped external
values is accepted: validation returns no error and sets the error flag
to false. -/
theorem validate_accepts_valid_nonduplicate
    (url isValidResourceName : String → Bool)
    (lst : List IDVPClaimMappingInterface) (em : Bool)
    (mp : Option IDVPClaimMappingInterface) (s : String)
    (hne : s.isEmpty = false) (hnw : (jsTrim s).isEmpty = false)
    (hfmt : url s = true ∨ isValidResourceName s = true)
    (hdup : s ∉ lst.map (fun a => a.idvpClaim)) :
    validateMappedValue url isValidResourceName lst em mp (some s) =
      ⟨none, false⟩ := by
  unfold validateMappedValue
  have hc : ¬∃ a ∈ lst, a.idvpClaim = s := by simpa using hdup
  rcases hfmt with hfmt | hfmt <;>
    simp [hne, hnw, numTruthy_land_toBits, hfmt, hc]

/-- Claim C10: the duplicate check compares the raw input string for
exact equality against the already-mapped external values, so any input
that is not literally present in that list — in particular one that
differs from a present value only by surrounding whitespace or letter
case — is never rejected as a duplicate. -/
theorem validate_duplicate_needs_exact_match
    (url isValidResourceName : String → Bool)
    (lst : List IDVPClaimMappingInterface) (em : Bool)
    (mp : Option IDVPClaimMappingInterface) (s : String)
    (hdup : s ∉ lst.map (fun a => a.idvpClaim)) :
    (validateMappedValue url isValidResourceName lst em mp (some s)).result ≠
      some .duplicate := by
  unfold validateMappedValue
  have hc : ¬∃ a ∈ lst, a.idvpClaim = s := by simpa using hdup
  by_cases h1 : (s.isEmpty || (jsTrim s).isEmpty) = true
  · simp [h1]
  · simp only [Bool.not_eq_true] at h1
    by_cases h2 :
        numTruthy (Nat.land (toBits (!url s)) (toBits (!isValidResourceName s))) = true
    · simp [h1, h2]
    · simp only [Bool.not_eq_true] at h2
      simp [h1, h2, hc]

/-- Claim C3: for a non-blank input, validation returns the
invalid-format error exactly when the value fails both the URI check and
the generic-resource-name check; acceptance of either check (realised
through the `toBits` bitwise-AND of the two negated checks) prevents the
invalid-format error. -/
theorem validate_invalid_format_iff_both_fail
    (url isValidResourceName : String → Bool)
    (lst : List IDVPClaimMappingInterface) (em : Bool)
    (mp : Option IDVPClaimMappingInterface) (s : String)
    (hne : s.isEmpty = false) (hnw : (jsTrim s).isEmpty = false) :
    (validateMappedValue url isValidResourceName lst em mp (some s)).result =
        some .invalidFormat ↔
      (url s = false ∧ isValidResourceName s = false) := by
  unfold validateMappedValue
  cases hu : url s <;> cases hr : isValidResourceName s <;>
    simp only [hne, hnw, numTruthy_land_toBits, hu, hr, Bool.or_self,
      Bool.not_false, Bool.not_true, Bool.and_self, Bool.and_false,
      Bool.false_and, Bool.true_and, Bool.or_false, Bool.false_or,
      if_false, if_true, Bool.false_eq_true, reduceIte]
  · simp
  all_goals
    constructor
    · intro hres
      exfalso
      revert hres
      split
      · split <;> simp
      · simp
    · intro hres
      simp at hres

/-- Claim C4: a non-blank, format-valid input that occurs among the
already-mapped external values is accepted (no error, flag false) when
the editor is in edit mode and the value equals the stored external
value of the edited mapping, and is rejected with the duplicate error (flag
true) in every other case. -/
theorem validate_duplicate_cases
    (url isValidResourceName : String → Bool)
    (lst : List IDVPClaimMappingInterface) (em : Bool)
    (mp : Option IDVPClaimMappingInterface) (s : String)
    (hne : s.isEmpty = false) (hnw : (jsTrim s).isEmpty = false)
    (hfmt : url s = true ∨ isValidResourceName s = true)
    (hmem : s ∈ lst.map (fun a => a.idvpClaim)) :
    ((em = true ∧ ∃ m, mp = some m ∧ m.idvpClaim = s) →
        validateMappedValue url isValidResourceName lst em mp (some s) =
          ⟨none, false⟩) ∧
    ((em = false ∨ ∀ m, mp = some m → m.idvpClaim ≠ s) →
        validateMappedValue url isValidResourceName lst em mp (some s) =
          ⟨some .duplicate, true⟩) := by
  unfold validateMappedValue
  have hc : ∃ a ∈ lst, a.idvpClaim = s := by simpa using hmem
  constructor
  · rintro ⟨hem, m, rfl, hms⟩
    rcases hfmt with hfmt | hfmt <;>
      simp [hne, hnw, numTruthy_land_toBits, hfmt, hc, hem, hms]
  · intro hno
    cases em with
    | false =>
      rcases hfmt with hfmt | hfmt <;>
        cases mp <;>
          simp [hne, hnw, numTruthy_land_toBits, hfmt, hc]
    | true =>
      cases mp with
      | none =>
        rcases hfmt with hfmt | hfmt <;>
          simp [hne, hnw, numTruthy_land_toBits, hfmt, hc]
      | some m =>
        have hms : m.idvpClaim ≠ s := by
          rcases hno with h | h
          · exact absurd h (by simp)
          · exact h m rfl
        rcases hfmt with hfmt | hfmt <;>
          simp [hne, hnw, numTruthy_land_toBits, hfmt, hc, hms]

/-- The empty string literal is empty. -/
theorem empty_string_isEmpty : "".isEmpty = true := by decide

/-- Claim C5: the derived candidate list equals the available list with
the local claim of the edited mapping appended exactly once at the end when
the editor is in edit mode and the mapping carries a non-empty external
value and a local claim; in every other case it equals the available
list unchanged. -/
theorem deriveCandidateList_spec (A : List IDVPLocalClaimInterface)
    (em : Bool) (mp : Option IDVPClaimMappingInterface) :
    (∀ m lc, mp = some m → em = true → m.idvpClaim ≠ "" → m.localClaim = some lc →
        deriveCandidateList A em mp = A ++ [lc]) ∧
    ((em = false ∨ mp = none ∨
        ∃ m, mp = some m ∧ (m.idvpClaim = "" ∨ m.localClaim = none)) →
      deriveCandidateList A em mp = A) := by
  constructor
  · rintro m lc rfl rfl hne hlc
    have hie : m.idvpClaim.isEmpty = false := by
      rw [Bool.eq_false_iff]
      intro h
      exact hne ((String.isEmpty_iff m.idvpClaim).mp h)
    simp [deriveCandidateList, strOptTruthy, hie, hlc]
  · rintro (rfl | rfl | ⟨m, rfl, hbad⟩)
    · cases mp <;> simp [deriveCandidateList]
    · simp [deriveCandidateList]
    · rcases hbad with hbad | hbad
      · simp [deriveCandidateList, strOptTruthy, hbad, empty_string_isEmpty]
      · cases hie : m.idvpClaim.isEmpty <;>
          simp [deriveCandidateList, strOptTruthy, hie, hbad]

/-- Claim C6: when the candidate list holds an element whose id equals
the selected id, the submit handler builds exactly one mapping — draft
string as external value, that element as local claim — and passes it to
the `onSubmit` callback exactly once. -/
theorem onFormSub_emits_found_mapping (em : Bool) (values : FormValues)
    (form : FormFields) (st : EditorState) (lc : IDVPLocalClaimInterface)
    (h : st.copyOfAttrs.find? (fun claim => claim.id == values.localClaimId) = some lc) :
    (onFormSub em values form st).emitted =
      [{ idvpClaim := values.mappedValue, localClaim := some lc }] ∧
    (onFormSub em values form st).emitted.length = 1 := by
  cases em <;> simp [onFormSub, h]

/-- Claim C7: after a submission in non-edit mode both form fields are
cleared, both field states are reset and both draft state cells are set
to the empty string; after a submission in edit mode the form fields and
the component state are left untouched. -/
theorem onFormSub_post_state (values : FormValues) (form : FormFields)
    (st : EditorState) :
    (onFormSub false values form st).form =
      { mappedValue := "", localClaimId := "",
        mappedValueFieldState := none, localClaimIdFieldState := none } ∧
    (onFormSub false values form st).state =
      { st with mappedInputValue := some "",
                selectedLocalAttributeInputValue := some "" } ∧
    (onFormSub true values form st).form = form ∧
    (onFormSub true values form st).state = st :=
  ⟨rfl, rfl, rfl, rfl⟩

/-- Claim C8: in every editor state, in both modes, the rendered submit
button is disabled whenever the error flag is set, the external-value
draft is empty or undefined, or the local-attribute selection is empty
or undefined. -/
theorem submit_disabled_when_invalid (em : Bool) (st : EditorState)
    (h : st.mappingHasError = some true ∨
         st.mappedInputValue = none ∨ st.mappedInputValue = some "" ∨
         st.selectedLocalAttributeInputValue = none ∨
         st.selectedLocalAttributeInputValue = some "") :
    submitButtonDisabled em st = true := by
  rcases h with h | h | h | h | h <;>
    cases em <;>
      simp [submitButtonDisabled, editingModeButtonDisabled,
        addModeButtonDisabled, boolOptTruthy, strOptTruthy,
        empty_string_isEmpty, h]

/-- Claim C9: when no candidate-list element matches the selected id,
the submit handler still calls the `onSubmit` callback exactly once,
with a mapping whose external value is the draft string and whose local
claim is absent. -/
theorem onFormSub_emits_without_local_claim (em : Bool) (values : FormValues)
    (form : FormFields) (st : EditorState)
    (h : st.copyOfAttrs.find? (fun claim => claim.id == values.localClaimId) = none) :
    (onFormSub em values form st).emitted =
      [{ idvpClaim := values.mappedValue, localClaim := none }] ∧
    (onFormSub em values form st).emitted.length = 1 := by
  cases em <;> simp [onFormSub, h]

/-- Witness for claim C1 at a concrete input: `urn:y` passes the URI
check, is absent from the mapped list, and is accepted. -/
theorem validate_accepts_valid_nonduplicate_wit :
    ("urn:y".isEmpty = false) ∧ ((jsTrim "urn:y").isEmpty = false) ∧
    ((fun s => s == "urn:y") "urn:y" = true ∨ (fun _ => false) "urn:y" = true) ∧
    ("urn:y" ∉ ([⟨"urn:z", none⟩] : List IDVPClaimMappingInterface).map
        (fun a => a.idvpClaim)) ∧
    validateMappedValue (fun s => s == "urn:y") (fun _ => false)
        [⟨"urn:z", none⟩] false none (some "urn:y") = ⟨none, false⟩ :=
  ⟨by decide, by decide, Or.inl (by decide), by decide,
    validate_accepts_valid_nonduplicate _ _ _ _ _ _ (by decide) (by decide)
      (Or.inl (by decide)) (by decide)⟩

/-- Witness for claim C2 at a concrete input: a whitespace-only value is
rejected with the required error. -/
theorem validate_blank_yields_required_wit :
    ((some "   " : Option String) = none ∨
      ∃ s, (some "   " : Option String) = some s ∧
        (s.isEmpty = true ∨ (jsTrim s).isEmpty = true)) ∧
    validateMappedValue (fun _ => true) (fun _ => true) [] false none
        (some "   ") = ⟨some .required, true⟩ :=
  ⟨Or.inr ⟨"   ", rfl, Or.inr (by decide)⟩,
    validate_blank_yields_required _ _ _ _ _ _
      (Or.inr ⟨"   ", rfl, Or.inr (by decide)⟩)⟩

/-- Witness for claim C3 at a concrete input: `attr1` fails the URI
check but passes the resource-name check, and the invalid-format iff
instantiates. -/
theorem validate_invalid_format_iff_both_fail_wit :
    ("attr1".isEmpty = false) ∧ ((jsTrim "attr1").isEmpty = false) ∧
    ((validateMappedValue (fun _ => false) (fun _ => true) [] false none
        (some "attr1")).result = some .invalidFormat ↔
      ((fun _ => false) "attr1" = true → False) ∧
        ((fun _ => true) "attr1" = true → False)) :=
  ⟨by decide, by decide, by
    have h := validate_invalid_format_iff_both_fail (fun _ => false)
      (fun _ => true) [] false none "attr1" (by decide) (by decide)
    simpa using h⟩

/-- Witness for claim C4 at a concrete input: editing the mapping whose
stored value is `urn:z` with the unchanged value passes, shown through
the first branch of the duplicate-case theorem. -/
theorem validate_duplicate_cases_wit :
    ("urn:z".isEmpty = false) ∧ ((jsTrim "urn:z").isEmpty = false) ∧
    ((fun _ => true) "urn:z" = true ∨ (fun _ => true) "urn:z" = true) ∧
    ("urn:z" ∈ ([⟨"urn:z", none⟩] : List IDVPClaimMappingInterface).map
        (fun a => a.idvpClaim)) ∧
    validateMappedValue (fun _ => true) (fun _ => true) [⟨"urn:z", none⟩]
        true (some ⟨"urn:z", none⟩) (some "urn:z") = ⟨none, false⟩ :=
  ⟨by decide, by decide, Or.inl (by decide), by decide,
    (validate_duplicate_cases _ _ _ _ _ _ (by decide) (by decide)
        (Or.inl (by decide)) (by decide)).1
      ⟨rfl, ⟨"urn:z", none⟩, rfl, rfl⟩⟩

/-- Witness for claim C5 at a concrete input: in edit mode with a fully
populated mapping, the local claim is appended at the end. -/
theorem deriveCandidateList_spec_wit :
    deriveCandidateList [⟨"a1", "A", "urn:a"⟩] true
        (some ⟨"urn:x", some ⟨"a2", "B", "urn:b"⟩⟩) =
      [⟨"a1", "A", "urn:a"⟩] ++ [⟨"a2", "B", "urn:b"⟩] :=
  (deriveCandidateList_spec [⟨"a1", "A", "urn:a"⟩] true
      (some ⟨"urn:x", some ⟨"a2", "B", "urn:b"⟩⟩)).1
    ⟨"urn:x", some ⟨"a2", "B", "urn:b"⟩⟩ ⟨"a2", "B", "urn:b"⟩
    rfl rfl (by decide) rfl

/-- Witness for claim C6 at a concrete input: selected id `a1` is found
in the candidate list and the emitted mapping carries that claim. -/
theorem onFormSub_emits_found_mapping_wit :
    (([⟨"a1", "A", "urn:a"⟩] : List IDVPLocalClaimInterface).find?
        (fun claim => claim.id == "a1") = some ⟨"a1", "A", "urn:a"⟩) ∧
    ((onFormSub false ⟨"urn:y", "a1"⟩ ⟨"urn:y", "a1", none, none⟩
          ⟨[⟨"a1", "A", "urn:a"⟩], some "urn:y", some "a1", some false⟩).emitted =
        [⟨"urn:y", some ⟨"a1", "A", "urn:a"⟩⟩] ∧
      (onFormSub false ⟨"urn:y", "a1"⟩ ⟨"urn:y", "a1", none, none⟩
          ⟨[⟨"a1", "A", "urn:a"⟩], some "urn:y", some "a1", some false⟩).emitted.length = 1) :=
  ⟨by decide,
    onFormSub_emits_found_mapping false ⟨"urn:y", "a1"⟩ ⟨"urn:y", "a1", none, none⟩
      ⟨[⟨"a1", "A", "urn:a"⟩], some "urn:y", some "a1", some false⟩
      ⟨"a1", "A", "urn:a"⟩ (by decide)⟩

/-- Witness for claim C8 at a concrete state: with the error flag set,
the editing-mode submit button is disabled. -/
theorem submit_disabled_when_invalid_wit :
    ((⟨[], none, none, some true⟩ : EditorState).mappingHasError = some true ∨
      (⟨[], none, none, some true⟩ : EditorState).mappedInputValue = none ∨
      (⟨[], none, none, some true⟩ : EditorState).mappedInputValue = some "" ∨
      (⟨[], none, none, some true⟩ : EditorState).selectedLocalAttributeInputValue = none ∨
      (⟨[], none, none, some true⟩ : EditorState).selectedLocalAttributeInputValue = some "") ∧
    submitButtonDisabled true ⟨[], none, none, some true⟩ = true :=
  ⟨Or.inl rfl, submit_disabled_when_invalid true _ (Or.inl rfl)⟩

/-- Witness for claim C9 at a concrete input: an unmatched id yields a
single emitted mapping without a local claim. -/
theorem onFormSub_emits_without_local_claim_wit :
    (([] : List IDVPLocalClaimInterface).find?
        (fun claim => claim.id == "zz") = none) ∧
    ((onFormSub true ⟨"urn:y", "zz"⟩ ⟨"urn:y", "zz", none, none⟩
          ⟨[], some "urn:y", some "zz", some false⟩).emitted =
        [⟨"urn:y", none⟩] ∧
      (onFormSub true ⟨"urn:y", "zz"⟩ ⟨"urn:y", "zz", none, none⟩
          ⟨[], some "urn:y", some "zz", some false⟩).emitted.length = 1) :=
  ⟨rfl,
    onFormSub_emits_without_local_claim true ⟨"urn:y", "zz"⟩
      ⟨"urn:y", "zz", none, none⟩ ⟨[], some "urn:y", some "zz", some false⟩ rfl⟩

/-- Witness for claim C10 at a concrete input: a value differing from a
mapped value only by leading whitespace is not reported as a duplicate. -/
theorem validate_duplicate_needs_exact_match_wit :
    (" Foo" ∉ ([⟨"Foo", none⟩] : List IDVPClaimMappingInterface).map
        (fun a => a.idvpClaim)) ∧
    (validateMappedValue (fun _ => true) (fun _ => true) [⟨"Foo", none⟩]
        false none (some " Foo")).result ≠ some .duplicate :=
  ⟨by decide,
    validate_duplicate_needs_exact_match _ _ _ _ _ _ (by decide)⟩

end AttributeMappingListItem
